import Mathlib

/-!
Verification of the exploit-finder correlation pipeline.

Shallow embedding of the three Python source files:
  - `expliot_finder/scraper/core/cve_scrapper.py`  (SuitableCVEFinder)
  - `expliot_finder/scraper/executor.py`           (ExploitScrapperExecutor)
  - `expliot_finder/main_executor.py`              (ExploitFinderExecutor.find_exploit)

External collaborators (the Google site-finder, the aiohttp fetch, the
BeautifulSoup parser) are modelled at their boundary: the site-finder is a
function from (service version, domain restriction) to a list of URLs, the
page fetch is a function from URL to `Except PyErr Page`, and a parsed page
is a structure carrying, for each summary cell, the results of the fixed
bs4 navigation calls the code performs on it.

Python exceptions are modelled with `Except PyErr`; `Optional[list[str]]`
variables are modelled with `Option (List String)`.
-/

/-- Python exceptions that the modelled code can raise. -/
inductive PyErr where
  | attributeError
  | typeError
  | keyError
  | networkError
deriving DecidableEq, Repr

/-- Character-list prefix test. -/
def listStartsWith : List Char → List Char → Bool
  | [], _ => true
  | _ :: _, [] => false
  | a :: t, b :: u => a = b && listStartsWith t u

/-- Character-list substring occurrence: the needle occurs at some position
of the hay (the empty needle always occurs). -/
def listOccurs (needle : List Char) : List Char → Bool
  | [] => needle.isEmpty
  | b :: rest => listStartsWith needle (b :: rest) || listOccurs needle rest

/-- Python substring containment `needle in hay`. -/
def containsSub (hay needle : String) : Bool :=
  listOccurs needle.data hay.data

example : containsSub "contains 7.2 version" "7" = true := by decide
example : containsSub "no match here" "7" = false := by decide
example : containsSub "abc" "" = true := by decide

/-- Python `any(char.isdigit() for char in element)` (inputs are ASCII). -/
def hasDigit (s : String) : Bool :=
  s.data.any Char.isDigit

/-- Python `list.remove(x)`: drop the first occurrence of `x` (callers below
only invoke it when `x` is present, so the absent-element `ValueError` path
never arises). -/
def pyRemoveFirst (x : String) : List String → List String
  | [] => []
  | a :: t => if a = x then t else a :: pyRemoveFirst x t

/-- Characters split on by `re.split("-|_", version)`. -/
def isVerSep (c : Char) : Bool :=
  c = '-' || c = '_'

/-- Splitting of a character list on `-` and `_`, mirroring
`re.split("-|_", s)` (empty input yields `[""]`, separators produce empty
pieces). -/
def splitVerChars : List Char → List (List Char)
  | [] => [[]]
  | c :: rest =>
    if isVerSep c then [] :: splitVerChars rest
    else
      match splitVerChars rest with
      | [] => [[c]]
      | h :: t => (c :: h) :: t

/-- The Python expression `re.split("-|_", s)` as a list of strings. -/
def reSplitVer (s : String) : List String :=
  (splitVerChars s.data).map (fun cs => String.mk cs)

/-- The `for element in parsed_service_ver: if not any(isdigit): remove`
loop of `SuitableCVEFinder.extracted_service_ver_in_nums`, with Python's
iterator semantics made explicit: the iterator keeps an index `i` that
advances by one every iteration while the list itself shrinks via
`remove`, so elements can be skipped.  `fuel` bounds the iteration count;
the loop stops as soon as `i` reaches the current length. -/
def verFilterLoop : Nat → Nat → List String → List String
  | 0, _, l => l
  | fuel + 1, i, l =>
    match l[i]? with
    | none => l
    | some x =>
      if hasDigit x then verFilterLoop fuel (i + 1) l
      else verFilterLoop fuel (i + 1) (pyRemoveFirst x l)

/-- `SuitableCVEFinder.extracted_service_ver_in_nums`: split the service
version on `-`/`_`, then run the (index-skipping) removal loop over the
result.  The list length never grows and the index advances every
iteration, so `(reSplitVer v).length` steps of fuel are exact. -/
def extracted_service_ver_in_nums (service_version : String) : List String :=
  verFilterLoop (reSplitVer service_version).length 0 (reSplitVer service_version)

example : extracted_service_ver_in_nums "7.2p1" = ["7.2p1"] := by decide
example : extracted_service_ver_in_nums "" = [] := by decide
example : extracted_service_ver_in_nums "Unknown" = [] := by decide
example : extracted_service_ver_in_nums "a-b-1" = ["b", "1"] := by decide
example : extracted_service_ver_in_nums "7.2p1-rc3" = ["7.2p1", "rc3"] := by decide

/-- A node of the parsed advisory page, carrying exactly what the bs4
navigation calls performed by `scrape_cve_table_page` yield on it: each
field is the (possibly absent) result of the corresponding call, plus the
node's `href` attribute and text.  BeautifulSoup itself is an external
library; this structure is its boundary model. -/
inductive HtmlNode where
  | mk (findPrev : Option HtmlNode) (findParentR : Option HtmlNode)
       (findTd : Option HtmlNode) (findNextTd : Option HtmlNode)
       (findA : Option HtmlNode) (hrefAttr : Option String)
       (text : String)

/-- Result of `find_previous()` on the node. -/
def HtmlNode.findPrev : HtmlNode → Option HtmlNode
  | .mk p _ _ _ _ _ _ => p

/-- Result of `find_parent()` on the node. -/
def HtmlNode.findParentR : HtmlNode → Option HtmlNode
  | .mk _ q _ _ _ _ _ => q

/-- Result of `find("td")` on the node. -/
def HtmlNode.findTd : HtmlNode → Option HtmlNode
  | .mk _ _ r _ _ _ _ => r

/-- Result of `find_next("td")` on the node. -/
def HtmlNode.findNextTd : HtmlNode → Option HtmlNode
  | .mk _ _ _ s _ _ _ => s

/-- Result of `find("a")` on the node. -/
def HtmlNode.findA : HtmlNode → Option HtmlNode
  | .mk _ _ _ _ a _ _ => a

/-- The node's `href` attribute, when present. -/
def HtmlNode.hrefAttr : HtmlNode → Option String
  | .mk _ _ _ _ _ h _ => h

/-- The node's `.text`. -/
def HtmlNode.text : HtmlNode → String
  | .mk _ _ _ _ _ _ t => t

/-- A parsed advisory-listing page: the sequence, in document order, of the
cells returned by `soup.find_all("td", class_="cvesummarylong")`. -/
structure Page where
  summaryCells : List HtmlNode

/-- The fixed structural traversal
`element.find_previous().find_previous().find_parent().find("td").find_next("td").find("a")["href"]`
performed from a matching summary cell.  A navigation call that comes back
`None` makes the next attribute access raise `AttributeError`; a missing
anchor makes the subscript raise `TypeError`; an anchor without `href`
raises `KeyError`.  No navigation result is `Except`-free: any absent step
is an exception, never a silent `None` overall. -/
def traverseToHref (e : HtmlNode) : Except PyErr String :=
  match e.findPrev with
  | none => .error .attributeError
  | some n1 =>
    match n1.findPrev with
    | none => .error .attributeError
    | some n2 =>
      match n2.findParentR with
      | none => .error .attributeError
      | some n3 =>
        match n3.findTd with
        | none => .error .attributeError
        | some n4 =>
          match n4.findNextTd with
          | none => .error .attributeError
          | some n5 =>
            match n5.findA with
            | none => .error .typeError
            | some a =>
              match a.hrefAttr with
              | none => .error .keyError
              | some h => .ok h

/-- Python `any(word in element.text for word in parsed_service_ver)`. -/
def cellMatches (tokens : List String) (cell : HtmlNode) : Bool :=
  tokens.any (fun w => containsSub cell.text w)

/-- The advisory domain hard-coded in `scrape_cve_table_page`. -/
def cveDomain : String := "https://www.cvedetails.com"

/-- The `for element in soup.find_all(...)` loop body of
`scrape_cve_table_page`: first matching cell wins; its traversal either
yields the absolute URL or raises; when no cell matches the loop falls
through to `return None`. -/
def scrapeCells (tokens : List String) : List HtmlNode → Except PyErr (Option String)
  | [] => .ok none
  | c :: rest =>
    if cellMatches tokens c then
      match traverseToHref c with
      | .error e => .error e
      | .ok h => .ok (some (cveDomain ++ h))
    else scrapeCells tokens rest

/-- `SuitableCVEFinder.scrape_cve_table_page` over the parsed page model. -/
def scrape_cve_table_page (page : Page) (parsed_service_ver : List String) :
    Except PyErr (Option String) :=
  scrapeCells parsed_service_ver page.summaryCells

/-- `SuitableCVEFinder.find_suitable_cve`: tokenize the version, await the
page fetch (a network failure propagates), scrape; the walrus test
`if suitable_cve := ...` is on a string that always starts with
`cveDomain`, hence non-empty, so any `some` result is truthy. -/
def find_suitable_cve (service_version : String)
    (fetchResult : Except PyErr Page) : Except PyErr (Option (List String)) :=
  match fetchResult with
  | .error e => .error e
  | .ok page =>
    match scrape_cve_table_page page (extracted_service_ver_in_nums service_version) with
    | .error e => .error e
    | .ok (some u) => .ok (some [u])
    | .ok none => .ok none

/-- The exploit-reference domain hard-coded in `scrap_exploits`. -/
def exploitDomain : String := "https://www.exploit-db.com"

/-- `ExploitScrapperExecutor.scrap_exploits`: delegate to the site-finder
restricted to the exploit domain.  `siteFinder version domain` models
`GoogleSitesFinder(service_version).search_for_pages(domain)`. -/
def scrap_exploits (siteFinder : String → String → List String)
    (service_version : String) : List String :=
  siteFinder service_version exploitDomain

/-- `ExploitScrapperExecutor.scrap_cve`: when the site-finder yields no
candidate page the code returns that empty list itself (`return
cve_table_url`), not `None`; otherwise it fetches the first candidate and
runs `find_suitable_cve`. -/
def scrap_cve (siteFinder : String → String → List String)
    (fetch : String → Except PyErr Page) (service_version : String) :
    Except PyErr (Option (List String)) :=
  match siteFinder service_version cveDomain with
  | [] => .ok (some [])
  | u :: _ => find_suitable_cve service_version (fetch u)

/-- `ExploitScrapperExecutor.run_web_scrappers`: `asyncio.gather` of the two
branches, returning their results in argument order; functionally, the pair
of both branches' results, with an exception from the advisory branch
propagating. -/
def run_web_scrappers (siteFinder : String → String → List String)
    (fetch : String → Except PyErr Page) (service_version : String) :
    Except PyErr (Option (List String) × List String) :=
  match scrap_cve siteFinder fetch service_version with
  | .error e => .error e
  | .ok c => .ok (c, scrap_exploits siteFinder service_version)

/-- A scanner finding: one open port with its service name and version, as
produced by the external `vulnerability_scanner` collaborator. -/
structure ServiceRecord where
  port_number : Nat
  service_name : String
  service_version : String
deriving DecidableEq, Repr

/-- The `Vulnerability` namedtuple built inside `find_exploit`: the service
record extended with the advisory and exploit links. -/
structure Vulnerability where
  port_number : Nat
  service_name : String
  service_version : String
  cve_link : String
  exploit_link : String
deriving DecidableEq, Repr

/-- An element of the `ports_services` list during `find_exploit`: entries
start as scanner records and are replaced, one by one, with `Vulnerability`
tuples. -/
inductive Entry where
  | svc (r : ServiceRecord)
  | vuln (v : Vulnerability)
deriving DecidableEq, Repr

/-- The `port_number` field, present on both entry shapes. -/
def Entry.port_number : Entry → Nat
  | .svc r => r.port_number
  | .vuln v => v.port_number

/-- The `service_name` field, present on both entry shapes. -/
def Entry.service_name : Entry → String
  | .svc r => r.service_name
  | .vuln v => v.service_name

/-- The `service_version` field, present on both entry shapes. -/
def Entry.service_version : Entry → String
  | .svc r => r.service_version
  | .vuln v => v.service_version

/-- Python `list.insert(n, x)`: insert before index `n`, appending when `n`
is at or beyond the end. -/
def pyInsert (x : α) : Nat → List α → List α
  | 0, l => x :: l
  | _ + 1, [] => [x]
  | n + 1, a :: t => a :: pyInsert x n t

/-- Python `del l[n]` for an in-range index (the loop below only deletes at
an index it just read from). -/
def pyDel : List α → Nat → List α
  | [], _ => []
  | _ :: t, 0 => t
  | a :: t, n + 1 => a :: pyDel t n

/-- One `find_exploit` loop pass over the mutating `ports_services` list,
with Python's iterator behaviour explicit: the iterator index `i` advances
by one per iteration and the loop ends once `i` reaches the current length.
State threaded through: the list, and the `cve_urls` (`Optional[list]`) and
`exploit_urls` (`list`) variables that live OUTSIDE the loop in the Python
code.  When the entry's version is not `"Unknown"` both variables are
overwritten by `run_web_scrappers` (an exception aborts the whole call);
otherwise they keep their previous values.  After emitting the record the
code deletes the first element of each variable when truthy.  The list
length is invariant (insert at `i+1` then delete at `i`), so fuel equal to
the initial length is exact. -/
def feLoop (scrapers : String → Except PyErr (Option (List String) × List String)) :
    Nat → Nat → List Entry → Option (List String) → List String →
    Except PyErr (List Entry)
  | 0, _, l, _, _ => .ok l
  | fuel + 1, i, l, cve_urls, exploit_urls =>
    match l[i]? with
    | none => .ok l
    | some collected_info =>
      match
        (if collected_info.service_version ≠ "Unknown" then
          scrapers collected_info.service_version
        else .ok (cve_urls, exploit_urls)) with
      | .error e => .error e
      | .ok (cve2, exp2) =>
        feLoop scrapers fuel (i + 1)
          (pyDel (pyInsert (.vuln
            { port_number := collected_info.port_number
              service_name := collected_info.service_name
              service_version := collected_info.service_version
              cve_link := match cve2 with
                | some (u :: _) => u
                | _ => "Unknown"
              exploit_link := match exp2 with
                | u :: _ => u
                | [] => "Unknown" }) (i + 1) l) i)
          (match cve2 with
            | some (_ :: t) => some t
            | x => x)
          (match exp2 with
            | _ :: t => t
            | [] => [])

/-- `ExploitFinderExecutor.find_exploit` over the `ports_services` list,
parametric in the per-version scraper pair (instantiated with
`run_web_scrappers` for the end-to-end results).  `cve_urls, exploit_urls`
start as `[], []` before the loop. -/
def find_exploit (scrapers : String → Except PyErr (Option (List String) × List String))
    (ports_services : List Entry) : Except PyErr (List Entry) :=
  feLoop scrapers ports_services.length 0 ports_services (some []) []

example :
    find_exploit
      (fun v => if v = "1.0" then .ok (some ["c1"], ["e1", "e2"]) else .ok (none, []))
      [.svc ⟨22, "ssh", "1.0"⟩, .svc ⟨80, "http", "Unknown"⟩] =
      .ok [.vuln ⟨22, "ssh", "1.0", "c1", "e1"⟩,
           .vuln ⟨80, "http", "Unknown", "Unknown", "e2"⟩] := by rfl

/-! ### Structural lemmas about the in-place merge loop -/

/-- `insert(i+1, x)` followed by `del l[i]` replaces the element at `i`. -/
theorem pyDel_pyInsert_eq_set (x : α) :
    ∀ (l : List α) (i : Nat), i < l.length →
      pyDel (pyInsert x (i + 1) l) i = l.set i x
  | _ :: _, 0, _ => rfl
  | a :: t, i + 1, h => by
    simp only [pyInsert, pyDel, List.set]
    exact congrArg (a :: ·) (pyDel_pyInsert_eq_set x t i (by simpa using h))

/-- Net effect of the whole merge loop from index `i` on: result has the
same length, entries before `i` are untouched, and every entry from `i` on
is replaced by a `Vulnerability` carrying the same port, name and version. -/
theorem feLoop_shape
    (scrapers : String → Except PyErr (Option (List String) × List String)) :
    ∀ (fuel i : Nat) (l : List Entry) (cve : Option (List String))
      (exp : List String) (res : List Entry),
      l.length ≤ i + fuel →
      feLoop scrapers fuel i l cve exp = .ok res →
      res.length = l.length ∧
      (∀ j, j < i → res[j]? = l[j]?) ∧
      (∀ j (e : Entry), i ≤ j → l[j]? = some e →
        ∃ v : Vulnerability, res[j]? = some (.vuln v) ∧
          v.port_number = e.port_number ∧ v.service_name = e.service_name ∧
          v.service_version = e.service_version)
  | 0, i, l, cve, exp, res, hfuel, hres => by
    simp only [feLoop] at hres
    cases hres
    refine ⟨rfl, fun _ _ => rfl, fun j e hij hj => absurd hj ?_⟩
    have : l.length ≤ j := by omega
    simp [List.getElem?_eq_none this]
  | fuel + 1, i, l, cve, exp, res, hfuel, hres => by
    simp only [feLoop] at hres
    split at hres
    · rename_i hl
      cases hres
      have hi : l.length ≤ i := List.getElem?_eq_none_iff.mp hl
      refine ⟨rfl, fun _ _ => rfl, fun j e hij hj => absurd hj ?_⟩
      have : l.length ≤ j := by omega
      simp [List.getElem?_eq_none this]
    · rename_i c hl
      have hilt : i < l.length := by
        rcases List.getElem?_eq_some_iff.mp hl with ⟨h, _⟩
        exact h
      split at hres
      · cases hres
      · rename_i cve2 exp2 hs
        rw [pyDel_pyInsert_eq_set _ l i hilt] at hres
        obtain ⟨hlen, hlt, hge⟩ :=
          feLoop_shape scrapers fuel (i + 1) _ _ _ res
            (by simp only [List.length_set]; omega) hres
        refine ⟨by rw [hlen, List.length_set], ?_, ?_⟩
        · intro j hj
          rw [hlt j (by omega), List.getElem?_set_ne (by omega)]
        · intro j e hij hj
          rcases Nat.eq_or_lt_of_le hij with hji | hji
          · subst hji
            have he : e = c := by rw [hl] at hj; exact (Option.some.inj hj).symm
            subst he
            have hv := hlt i (by omega)
            rw [List.getElem?_set_eq_of_lt _ hilt] at hv
            exact ⟨_, hv, rfl, rfl, rfl⟩
          · exact hge j e hji (by rw [List.getElem?_set_ne (by omega)]; exact hj)

/-- C1: for every ScanResult input, `find_exploit` (ReportMerger's merge)
produces exactly one CorrelatedRecord per input ServiceRecord, at the same
ordinal index, with `port_number`, `service_name` and `service_version` at
each index equal to the input record's fields at that index; no record is
duplicated or dropped, even when no match is found. -/
theorem find_exploit_preserves_records
    (scrapers : String → Except PyErr (Option (List String) × List String))
    (scan : List ServiceRecord) (res : List Entry)
    (hres : find_exploit scrapers (scan.map .svc) = .ok res) :
    res.length = scan.length ∧
    ∀ j (hj : j < scan.length),
      ∃ v : Vulnerability, res[j]? = some (.vuln v) ∧
        v.port_number = (scan.get ⟨j, hj⟩).port_number ∧
        v.service_name = (scan.get ⟨j, hj⟩).service_name ∧
        v.service_version = (scan.get ⟨j, hj⟩).service_version := by
  obtain ⟨hlen, _, hge⟩ :=
    feLoop_shape scrapers (scan.map Entry.svc).length 0 (scan.map .svc)
      (some []) [] res (by omega) hres
  refine ⟨by simpa using hlen, fun j hj => ?_⟩
  have hj2 : (scan.map Entry.svc)[j]? = some (.svc (scan.get ⟨j, hj⟩)) := by
    rw [List.getElem?_map, List.getElem?_eq_getElem hj]
    rfl
  obtain ⟨v, hv, h1, h2, h3⟩ := hge j _ (Nat.zero_le j) hj2
  exact ⟨v, hv, h1, h2, h3⟩

/-- Concrete scraper pair used to witness the merge-shape theorem. -/
def c1Scrapers : String → Except PyErr (Option (List String) × List String) :=
  fun _ => .ok (some ["https://www.cvedetails.com/cve/CVE-2021-41773/"],
    ["https://www.exploit-db.com/exploits/50383"])

/-- Concrete scan input used to witness the merge-shape theorem. -/
def c1Scan : List ServiceRecord :=
  [⟨80, "apache", "2.4.49"⟩, ⟨22, "ssh", "Unknown"⟩]

/-- Concrete merge output used to witness the merge-shape theorem. -/
def c1Res : List Entry :=
  [.vuln ⟨80, "apache", "2.4.49", "https://www.cvedetails.com/cve/CVE-2021-41773/",
    "https://www.exploit-db.com/exploits/50383"⟩,
   .vuln ⟨22, "ssh", "Unknown", "Unknown", "Unknown"⟩]

/-- Witness for `find_exploit_preserves_records` at a concrete two-record
scan. -/
theorem find_exploit_preserves_records_witness :
    find_exploit c1Scrapers (c1Scan.map .svc) = .ok c1Res ∧
    (c1Res.length = c1Scan.length ∧
     ∀ j (hj : j < c1Scan.length),
       ∃ v : Vulnerability, c1Res[j]? = some (.vuln v) ∧
         v.port_number = (c1Scan.get ⟨j, hj⟩).port_number ∧
         v.service_name = (c1Scan.get ⟨j, hj⟩).service_name ∧
         v.service_version = (c1Scan.get ⟨j, hj⟩).service_version) :=
  ⟨by rfl, find_exploit_preserves_records c1Scrapers c1Scan c1Res (by rfl)⟩

/-- The merge loop never consults the scrapers at version `"Unknown"`: two
scraper functions that agree on every other version produce identical
loops. -/
theorem feLoop_congr (s1 s2 : String → Except PyErr (Option (List String) × List String))
    (hagree : ∀ v, v ≠ "Unknown" → s1 v = s2 v) :
    ∀ (fuel i : Nat) (l : List Entry) (cve : Option (List String)) (exp : List String),
      feLoop s1 fuel i l cve exp = feLoop s2 fuel i l cve exp
  | 0, _, _, _, _ => rfl
  | fuel + 1, i, l, cve, exp => by
    cases hl : l[i]? with
    | none => simp only [feLoop, hl]
    | some c =>
      simp only [feLoop, hl]
      by_cases hv : c.service_version = "Unknown"
      · simp only [hv, ne_eq, not_true_eq_false, if_neg, ite_false, reduceIte]
        exact feLoop_congr s1 s2 hagree fuel (i + 1) _ _ _
      · simp only [ne_eq, hv, not_false_eq_true, ite_true, hagree _ hv]
        cases s2 c.service_version with
        | error e => rfl
        | ok p =>
          obtain ⟨cve2, exp2⟩ := p
          exact feLoop_congr s1 s2 hagree fuel (i + 1) _ _ _

/-- Replacing an entry preserves the per-entry link discipline: if the new
vulnerability respects it and every old entry did, every entry of the
updated list does. -/
theorem setVulnInvariant (l : List Entry) (i : Nat) (hilt : i < l.length)
    (x : Vulnerability)
    (hx : x.service_version = "Unknown" →
      x.cve_link = "Unknown" ∧ x.exploit_link = "Unknown")
    (hinv : ∀ (j : Nat) (w : Vulnerability), l[j]? = some (Entry.vuln w) →
      w.service_version = "Unknown" →
      w.cve_link = "Unknown" ∧ w.exploit_link = "Unknown") :
    ∀ (j : Nat) (w : Vulnerability),
      (l.set i (Entry.vuln x))[j]? = some (Entry.vuln w) →
      w.service_version = "Unknown" →
      w.cve_link = "Unknown" ∧ w.exploit_link = "Unknown" := by
  intro j w hj hw
  by_cases hji : j = i
  · subst hji
    rw [List.getElem?_set_eq_of_lt _ hilt] at hj
    injection hj with hj2
    injection hj2 with hj3
    subst hj3
    exact hx hw
  · rw [List.getElem?_set_ne (fun h => hji h.symm)] at hj
    exact hinv j w hj hw

/-- Invariant of the merge loop: when every scraper result list carries at
most one URL, the `cve_urls` variable is always exhausted (`none` or
`some []`) and `exploit_urls` empty at the top of each iteration, so every
emitted record whose version is `"Unknown"` carries `"Unknown"` links. -/
theorem feLoop_unknown_links
    (scrapers : String → Except PyErr (Option (List String) × List String))
    (hscr : ∀ v c e, scrapers v = .ok (c, e) →
      (∀ u, c = some u → u.length ≤ 1) ∧ e.length ≤ 1) :
    ∀ (fuel i : Nat) (l : List Entry) (cve : Option (List String))
      (exp : List String) (res : List Entry),
      cve = none ∨ cve = some [] → exp = [] →
      (∀ (j : Nat) (w : Vulnerability), l[j]? = some (Entry.vuln w) →
        w.service_version = "Unknown" →
        w.cve_link = "Unknown" ∧ w.exploit_link = "Unknown") →
      feLoop scrapers fuel i l cve exp = .ok res →
      ∀ (j : Nat) (w : Vulnerability), res[j]? = some (Entry.vuln w) →
        w.service_version = "Unknown" →
        w.cve_link = "Unknown" ∧ w.exploit_link = "Unknown"
  | 0, i, l, cve, exp, res, hcve, hexp, hinv, hres => by
    simp only [feLoop] at hres
    cases hres
    exact hinv
  | fuel + 1, i, l, cve, exp, res, hcve, hexp, hinv, hres => by
    simp only [feLoop] at hres
    split at hres
    · cases hres
      exact hinv
    · rename_i c hl
      have hilt : i < l.length := by
        rcases List.getElem?_eq_some_iff.mp hl with ⟨h, _⟩
        exact h
      split at hres
      · cases hres
      · rename_i cve2 exp2 hs
        rw [pyDel_pyInsert_eq_set _ l i hilt] at hres
        by_cases hv : c.service_version = "Unknown"
        · rw [if_neg (by simp [hv])] at hs
          injection hs with hs2
          injection hs2 with hs3 hs4
          subst hs3
          subst hs4
          subst hexp
          rcases hcve with hcv | hcv <;> subst hcv <;>
            exact feLoop_unknown_links scrapers hscr fuel (i + 1) _ _ _ res
              (by first | exact Or.inl rfl | exact Or.inr rfl) rfl
              (setVulnInvariant l i hilt _ (fun _ => ⟨rfl, rfl⟩) hinv) hres
        · rw [if_pos (by simp [hv])] at hs
          obtain ⟨hb1, hb2⟩ := hscr _ _ _ hs
          have hc0 : cve2 = none ∨ cve2 = some [] ∨ ∃ u, cve2 = some [u] := by
            rcases cve2 with _ | cl
            · exact Or.inl rfl
            · rcases cl with _ | ⟨cu, ct⟩
              · exact Or.inr (Or.inl rfl)
              · have h1 := hb1 (cu :: ct) rfl
                have h2 : ct = [] := by
                  rcases ct with _ | ⟨a, t⟩
                  · rfl
                  · exfalso
                    simp only [List.length_cons] at h1
                    omega
                subst h2
                exact Or.inr (Or.inr ⟨cu, rfl⟩)
          have he0 : exp2 = [] ∨ ∃ u, exp2 = [u] := by
            rcases exp2 with _ | ⟨eu, et⟩
            · exact Or.inl rfl
            · have h2 : et = [] := by
                rcases et with _ | ⟨a, t⟩
                · rfl
                · exfalso
                  simp only [List.length_cons] at hb2
                  omega
              subst h2
              exact Or.inr ⟨eu, rfl⟩
          rcases hc0 with hc0 | hc0 | ⟨cu, hc0⟩ <;> rcases he0 with he0 | ⟨eu, he0⟩ <;>
            subst hc0 <;> subst he0 <;>
            exact feLoop_unknown_links scrapers hscr fuel (i + 1) _ _ _ res
              (by first | exact Or.inl rfl | exact Or.inr rfl) rfl
              (setVulnInvariant l i hilt _ (fun h => absurd h hv) hinv) hres

/-- Scrapers for the C2 counterexample: the exploit search for version
`"1.0"` yields two candidate URLs. -/
def c2Scrapers : String → Except PyErr (Option (List String) × List String) :=
  fun v => if v = "1.0" then .ok (some ["c1"], ["e1", "e2"]) else .ok (none, [])

/-- Scan input for the C2 counterexample: the second record's version is
`"Unknown"`. -/
def c2Scan : List Entry :=
  [.svc ⟨22, "ssh", "1.0"⟩, .svc ⟨80, "http", "Unknown"⟩]

/-- C2 counterexample: the second record has service_version `"Unknown"`,
yet its emitted exploit_link is `"e2"` — the leftover second URL of the
FIRST record's exploit search — not `"Unknown"`, because `cve_urls,
exploit_urls` live outside the loop and only their first element is
consumed per iteration. -/
theorem unknown_version_leftover_link_cex :
    c2Scan[1]? = some (Entry.svc ⟨80, "http", "Unknown"⟩) ∧
    find_exploit c2Scrapers c2Scan =
      .ok [.vuln ⟨22, "ssh", "1.0", "c1", "e1"⟩,
           .vuln ⟨80, "http", "Unknown", "Unknown", "e2"⟩] ∧
    ("e2" : String) ≠ "Unknown" :=
  ⟨rfl, by rfl, by decide⟩

/-- C2 (amended): a ServiceRecord with service_version `"Unknown"` issues no
search (the merge result is unchanged under any replacement of the scraper
pair at versions other than `"Unknown"` it agrees with), and its emitted
CorrelatedRecord has cve_link `"Unknown"` and exploit_link `"Unknown"`
PROVIDED every scraper result list carries at most one URL; when an earlier
record's exploit search returns two or more URLs the leftover URL leaks
into the next `"Unknown"`-version record's exploit_link. -/
theorem unknown_version_links
    (s1 s2 : String → Except PyErr (Option (List String) × List String))
    (scan : List ServiceRecord) (res : List Entry)
    (hagree : ∀ v, v ≠ "Unknown" → s1 v = s2 v)
    (hscr : ∀ v c e, s1 v = .ok (c, e) →
      (∀ u, c = some u → u.length ≤ 1) ∧ e.length ≤ 1)
    (hres : find_exploit s1 (scan.map .svc) = .ok res) :
    find_exploit s2 (scan.map .svc) = .ok res ∧
    ∀ (j : Nat) (w : Vulnerability), res[j]? = some (Entry.vuln w) →
      w.service_version = "Unknown" →
      w.cve_link = "Unknown" ∧ w.exploit_link = "Unknown" := by
  constructor
  · rw [find_exploit] at hres ⊢
    rw [← feLoop_congr s1 s2 hagree]
    exact hres
  · refine feLoop_unknown_links s1 hscr (scan.map Entry.svc).length 0 _
      (some []) [] res (Or.inr rfl) rfl ?_ hres
    intro j w hj hw
    rw [List.getElem?_map] at hj
    cases hmm : scan[j]? with
    | none => rw [hmm] at hj; simp at hj
    | some r => rw [hmm] at hj; simp at hj

/-- Scrapers for the C2 witness: one URL per branch. -/
def c2wScrapers : String → Except PyErr (Option (List String) × List String) :=
  fun _ => .ok (some ["cve-url"], ["exploit-url"])

/-- Scan input for the C2 witness. -/
def c2wScan : List ServiceRecord :=
  [⟨80, "apache", "2.4.49"⟩, ⟨22, "ssh", "Unknown"⟩]

/-- Merge output for the C2 witness. -/
def c2wRes : List Entry :=
  [.vuln ⟨80, "apache", "2.4.49", "cve-url", "exploit-url"⟩,
   .vuln ⟨22, "ssh", "Unknown", "Unknown", "Unknown"⟩]

/-- Witness for `unknown_version_links` at a concrete two-record scan. -/
theorem unknown_version_links_witness :
    find_exploit c2wScrapers (c2wScan.map .svc) = .ok c2wRes ∧
    (find_exploit c2wScrapers (c2wScan.map .svc) = .ok c2wRes ∧
     ∀ (j : Nat) (w : Vulnerability), c2wRes[j]? = some (Entry.vuln w) →
       w.service_version = "Unknown" →
       w.cve_link = "Unknown" ∧ w.exploit_link = "Unknown") :=
  ⟨by rfl,
   unknown_version_links c2wScrapers c2wScrapers c2wScan c2wRes
    (fun _ _ => rfl)
    (fun v c e h => by
      injection h with h2
      injection h2 with h3 h4
      subst h3
      subst h4
      refine ⟨fun u hu => ?_, by decide⟩
      injection hu with hu2
      subst hu2
      decide)
    (by rfl)⟩

/-- C3 (code bug): on input `"a-b-1"` the tokenizer returns `["b", "1"]`,
and `"b"` contains no digit: the `remove`-while-iterating loop in
`extracted_service_ver_in_nums` skips the element following each removal,
so a digit-free token can survive, contradicting the function's own
docstring ("without any letters or words"). -/
theorem tokenizer_keeps_digitless_token :
    extracted_service_ver_in_nums "a-b-1" = ["b", "1"] ∧
    hasDigit "b" = false :=
  ⟨by decide, by decide⟩

/-- C8 counterexample: the tokenizer maps `"7.2p1"` to `["7.2p1"]`, not to
`["7", "2", "1"]` — it splits only on `-` and `_`, never on `.` or letter
boundaries, so no maximal-numeric-substring extraction happens. -/
theorem tokenizer_7_2p1_cex :
    extracted_service_ver_in_nums "7.2p1" = ["7.2p1"] ∧
    (["7.2p1"] : List String) ≠ ["7", "2", "1"] :=
  ⟨by decide, by decide⟩

/-- C8 (amended): the version tokenizer maps `"7.2p1"` to the single token
`["7.2p1"]`: tokens are the `-`/`_`-separated segments that contain at
least one digit (kept whole), not the numeric substrings of the version
string. -/
theorem tokenizer_7_2p1 :
    extracted_service_ver_in_nums "7.2p1" = ["7.2p1"] := by decide

/-! ### Behaviour of the advisory table extraction -/

/-- When no summary cell matches any token, the scan loop falls through and
returns `none` without error. -/
theorem scrapeCells_no_match (tokens : List String) :
    ∀ cells : List HtmlNode, (∀ c ∈ cells, cellMatches tokens c = false) →
      scrapeCells tokens cells = .ok none
  | [], _ => rfl
  | c :: rest, h => by
    simp only [scrapeCells, h c (List.mem_cons_self c rest), Bool.false_eq_true,
      if_false, ite_false]
    exact scrapeCells_no_match tokens rest (fun x hx => h x (List.mem_cons_of_mem c hx))

/-- The first matching summary cell in document order decides the result:
the loop reaches it and performs the structural traversal from it. -/
theorem scrapeCells_first_match (tokens : List String) (c : HtmlNode)
    (post : List HtmlNode) (hc : cellMatches tokens c = true) :
    ∀ pre : List HtmlNode, (∀ x ∈ pre, cellMatches tokens x = false) →
      scrapeCells tokens (pre ++ c :: post) =
        match traverseToHref c with
        | .error e => .error e
        | .ok h => .ok (some (cveDomain ++ h))
  | [], _ => by simp only [List.nil_append, scrapeCells, hc, if_true, ite_true]
  | x :: pre, hpre => by
    simp only [List.cons_append, scrapeCells,
      hpre x (List.mem_cons_self x pre), Bool.false_eq_true, if_false, ite_false]
    exact scrapeCells_first_match tokens c post hc pre
      (fun y hy => hpre y (List.mem_cons_of_mem x hy))

/-- Empty token list: `any` over no tokens is false, so no cell matches. -/
theorem cellMatches_nil (c : HtmlNode) : cellMatches [] c = false := rfl

/-- A summary cell with no outgoing navigation structure at all: the first
`find_previous()` already yields nothing. -/
def plainCell (txt : String) : HtmlNode :=
  .mk none none none none none none txt

/-- A summary cell whose six-step structural traversal is complete and ends
at an anchor with the given `href`. -/
def chainCell (href : String) (txt : String) : HtmlNode :=
  .mk (some (.mk (some (.mk none
    (some (.mk none none
      (some (.mk none none none
        (some (.mk none none none none
          (some (.mk none none none none none (some href) "")) none ""))
        none none ""))
      none none none ""))
    none none none none ""))
    none none none none none ""))
    none none none none none txt

example : traverseToHref (chainCell "/cve/CVE-2021-41773/" "t") =
    .ok "/cve/CVE-2021-41773/" := by rfl

/-- C5: `scrape_cve_table_page` selects the first summary cell in document
order whose text contains any token as a literal substring and returns the
absolute URL formed by prefixing the source domain to the href reached by
the structural traversal from that cell (here stated for a traversal that
succeeds); it returns none when no summary cell matches, when the page has
zero summary cells, and when the token sequence is empty. -/
theorem scrape_first_match_spec (tokens : List String) :
    (∀ (pre post : List HtmlNode) (c : HtmlNode) (href : String),
      (∀ x ∈ pre, cellMatches tokens x = false) →
      cellMatches tokens c = true →
      traverseToHref c = .ok href →
      scrape_cve_table_page ⟨pre ++ c :: post⟩ tokens =
        .ok (some (cveDomain ++ href))) ∧
    (∀ page : Page, (∀ x ∈ page.summaryCells, cellMatches tokens x = false) →
      scrape_cve_table_page page tokens = .ok none) ∧
    scrape_cve_table_page ⟨[]⟩ tokens = .ok none ∧
    (∀ page : Page, scrape_cve_table_page page [] = .ok none) := by
  refine ⟨?_, ?_, rfl, ?_⟩
  · intro pre post c href hpre hc htrav
    show scrapeCells tokens (pre ++ c :: post) = .ok (some (cveDomain ++ href))
    rw [scrapeCells_first_match tokens c post hc pre hpre, htrav]
  · intro page h
    exact scrapeCells_no_match tokens page.summaryCells h
  · intro page
    exact scrapeCells_no_match [] page.summaryCells (fun c _ => cellMatches_nil c)

/-- Non-matching cell used by the C5 witness. -/
def c5NoMatch : HtmlNode := plainCell "no match here"

/-- Matching cell with a complete traversal used by the C5 witness. -/
def c5Cell : HtmlNode := chainCell "/cve/CVE-2021-41773/" "contains 7.2 version"

/-- Witness for `scrape_first_match_spec` on the spec's own example page:
cells ["no match here", "contains 7.2 version"], tokens ["7", "2"]. -/
theorem scrape_first_match_spec_witness :
    scrape_cve_table_page ⟨[c5NoMatch, c5Cell]⟩ ["7", "2"] =
      .ok (some (cveDomain ++ "/cve/CVE-2021-41773/")) ∧
    scrape_cve_table_page ⟨[c5NoMatch]⟩ ["7", "2"] = .ok none ∧
    scrape_cve_table_page ⟨[]⟩ ["7", "2"] = .ok none ∧
    scrape_cve_table_page ⟨[c5NoMatch, c5Cell]⟩ [] = .ok none := by
  obtain ⟨h1, h2, h3, h4⟩ := scrape_first_match_spec ["7", "2"]
  exact ⟨h1 [c5NoMatch] [] c5Cell "/cve/CVE-2021-41773/" (by decide) (by decide) (by rfl),
         h2 ⟨[c5NoMatch]⟩ (by decide), h3, h4 ⟨[c5NoMatch, c5Cell]⟩⟩

/-- Matching summary cell whose structural traversal immediately fails
(`find_previous()` yields nothing), as on a redesigned page. -/
def c4BadCell : HtmlNode := plainCell "version 7 found here"

/-- C4 counterexample: on a page whose only summary cell matches token "7"
but has no surrounding structure, `scrape_cve_table_page` raises
(`AttributeError` from calling `find_previous` on `None`) instead of
returning none: a malformed page does crash the pipeline. -/
theorem malformed_page_raises_cex :
    cellMatches ["7"] c4BadCell = true ∧
    scrape_cve_table_page ⟨[c4BadCell]⟩ ["7"] = .error .attributeError ∧
    Except.error .attributeError ≠
      (Except.ok none : Except PyErr (Option String)) :=
  ⟨by decide, by rfl, fun h => Except.noConfusion h⟩

/-- C4 (amended): `scrape_cve_table_page` silently returns none only when NO
summary cell matches (including zero cells and empty token lists); when the
first matching cell's structural traversal fails to locate the expected
link element, the exception escapes and the pipeline crashes. -/
theorem scrape_malformed_behaviour (tokens : List String) :
    (∀ page : Page, (∀ x ∈ page.summaryCells, cellMatches tokens x = false) →
      scrape_cve_table_page page tokens = .ok none) ∧
    (∀ (pre post : List HtmlNode) (c : HtmlNode) (e : PyErr),
      (∀ x ∈ pre, cellMatches tokens x = false) →
      cellMatches tokens c = true →
      traverseToHref c = .error e →
      scrape_cve_table_page ⟨pre ++ c :: post⟩ tokens = .error e) := by
  refine ⟨?_, ?_⟩
  · intro page h
    exact scrapeCells_no_match tokens page.summaryCells h
  · intro pre post c e hpre hc htrav
    show scrapeCells tokens (pre ++ c :: post) = .error e
    rw [scrapeCells_first_match tokens c post hc pre hpre, htrav]

/-- Witness for `scrape_malformed_behaviour` at a concrete malformed page. -/
theorem scrape_malformed_behaviour_witness :
    scrape_cve_table_page ⟨[plainCell "nothing relevant"]⟩ ["7"] = .ok none ∧
    scrape_cve_table_page ⟨[c4BadCell]⟩ ["7"] = .error .attributeError := by
  obtain ⟨h1, h2⟩ := scrape_malformed_behaviour ["7"]
  exact ⟨h1 ⟨[plainCell "nothing relevant"]⟩ (by decide),
         h2 [] [] c4BadCell .attributeError (by decide) (by decide) (by rfl)⟩

/-! ### Result shape of the advisory search -/

/-- Site-finder yielding no candidate pages. -/
def c6EmptyFinder : String → String → List String := fun _ _ => []

/-- Site-finder yielding one candidate listing page. -/
def c6OneFinder : String → String → List String := fun _ _ => ["listing"]

/-- Fetch returning a page whose only summary cell matches nothing. -/
def c6Fetch : String → Except PyErr Page :=
  fun _ => .ok ⟨[plainCell "irrelevant text"]⟩

/-- C6 counterexample: when the site-finder yields no candidate page,
`scrap_cve` returns the empty list itself (`return cve_table_url`), i.e.
`some []`, not none. -/
theorem scrap_cve_empty_sitefinder_cex :
    scrap_cve c6EmptyFinder c6Fetch "2.4.49" = .ok (some []) ∧
    (Except.ok (some []) : Except PyErr (Option (List String))) ≠ .ok none :=
  ⟨by rfl, fun h => Option.noConfusion (Except.ok.inj h)⟩

/-- C6 (amended): `scrap_cve` returns the EMPTY SEQUENCE (not none) when
the site-finder yields no candidate page, returns none when table
extraction finds no matching row, and every sequence it returns has at most
one element. -/
theorem scrap_cve_result_shape
    (siteFinder : String → String → List String)
    (fetch : String → Except PyErr Page) (v : String) :
    (siteFinder v cveDomain = [] →
      scrap_cve siteFinder fetch v = .ok (some [])) ∧
    (∀ (u : String) (rest : List String) (page : Page),
      siteFinder v cveDomain = u :: rest → fetch u = .ok page →
      scrape_cve_table_page page (extracted_service_ver_in_nums v) = .ok none →
      scrap_cve siteFinder fetch v = .ok none) ∧
    (∀ l : List String, scrap_cve siteFinder fetch v = .ok (some l) →
      l.length ≤ 1) := by
  refine ⟨?_, ?_, ?_⟩
  · intro h
    simp only [scrap_cve, h]
  · intro u rest page hsf hf hscrape
    simp only [scrap_cve, hsf, find_suitable_cve, hf, hscrape]
  · intro l h
    rw [scrap_cve] at h
    split at h
    · injection h with h2
      injection h2 with h3
      subst h3
      exact Nat.zero_le 1
    · rw [find_suitable_cve.eq_def] at h
      split at h
      · cases h
      · split at h
        · cases h
        · injection h with h2
          injection h2 with h3
          subst h3
          exact Nat.le_refl 1
        · injection h with h2
          cases h2

/-- Witness for `scrap_cve_result_shape` at concrete collaborators. -/
theorem scrap_cve_result_shape_witness :
    scrap_cve c6EmptyFinder c6Fetch "2.4.49" = .ok (some []) ∧
    scrap_cve c6OneFinder c6Fetch "2.4.49" = .ok none ∧
    ([] : List String).length ≤ 1 :=
  ⟨(scrap_cve_result_shape c6EmptyFinder c6Fetch "2.4.49").1 rfl,
   (scrap_cve_result_shape c6OneFinder c6Fetch "2.4.49").2.1
     "listing" [] ⟨[plainCell "irrelevant text"]⟩ rfl rfl (by rfl),
   (scrap_cve_result_shape c6EmptyFinder c6Fetch "2.4.49").2.2 []
     ((scrap_cve_result_shape c6EmptyFinder c6Fetch "2.4.49").1 rfl)⟩

/-- C7: a network failure raised during the advisory page fetch is not
caught inside `find_suitable_cve`, `scrap_cve` or `run_web_scrappers`: it
propagates unchanged to the caller of the advisory search branch. -/
theorem network_error_propagates
    (siteFinder : String → String → List String) (v : String) (e : PyErr) :
    find_suitable_cve v (.error e) = .error e ∧
    (∀ (u : String) (rest : List String), siteFinder v cveDomain = u :: rest →
      scrap_cve siteFinder (fun _ => .error e) v = .error e) ∧
    (∀ (u : String) (rest : List String), siteFinder v cveDomain = u :: rest →
      run_web_scrappers siteFinder (fun _ => .error e) v = .error e) := by
  refine ⟨rfl, ?_, ?_⟩
  · intro u rest h
    simp only [scrap_cve, h]
    rfl
  · intro u rest h
    simp only [run_web_scrappers, scrap_cve, h]
    rfl

/-- Site-finder for the C7 witness. -/
def c7Finder : String → String → List String := fun _ _ => ["listing"]

/-- Witness for `network_error_propagates` at a concrete network failure. -/
theorem network_error_propagates_witness :
    find_suitable_cve "2.4.49" (.error .networkError) = .error .networkError ∧
    scrap_cve c7Finder (fun _ => .error .networkError) "2.4.49" =
      .error .networkError ∧
    run_web_scrappers c7Finder (fun _ => .error .networkError) "2.4.49" =
      .error .networkError := by
  obtain ⟨h1, h2, h3⟩ :=
    network_error_propagates c7Finder "2.4.49" PyErr.networkError
  exact ⟨h1, h2 "listing" [] rfl, h3 "listing" [] rfl⟩

/-! ### Advisory URLs carry the hard-coded domain prefix -/

/-- Any URL produced by the table-scan loop is the domain prefix followed by
the matched row's href. -/
theorem scrapeCells_domain (tokens : List String) :
    ∀ (cells : List HtmlNode) (u : String),
      scrapeCells tokens cells = .ok (some u) → ∃ rest, u = cveDomain ++ rest
  | [], u, h => by
    injection h with h2
    exact Option.noConfusion h2
  | c :: cells, u, h => by
    simp only [scrapeCells] at h
    split at h
    · split at h
      · cases h
      · rename_i href heq
        injection h with h2
        injection h2 with h3
        exact ⟨href, h3.symm⟩
    · exact scrapeCells_domain tokens cells u h

/-- Any URL inside a `some` result of `scrap_cve` carries the domain
prefix. -/
theorem scrap_cve_domain (siteFinder : String → String → List String)
    (fetch : String → Except PyErr Page) (v : String) (l : List String)
    (h : scrap_cve siteFinder fetch v = .ok (some l)) :
    ∀ u ∈ l, ∃ rest, u = cveDomain ++ rest := by
  rw [scrap_cve] at h
  split at h
  · injection h with h2
    injection h2 with h3
    subst h3
    intro u hu
    cases hu
  · rw [find_suitable_cve.eq_def] at h
    split at h
    · cases h
    · split at h
      · cases h
      · rename_i u2 hscrape
        injection h with h2
        injection h2 with h3
        subst h3
        intro u hu
        rcases List.mem_singleton.mp hu with rfl
        exact scrapeCells_domain (extracted_service_ver_in_nums v) _ u hscrape
      · injection h with h2
        cases h2

/-- The advisory component of `run_web_scrappers` carries the domain
prefix on every URL. -/
theorem run_web_scrappers_cve_domain
    (siteFinder : String → String → List String)
    (fetch : String → Except PyErr Page) (v : String)
    (c : Option (List String)) (e2 : List String)
    (h : run_web_scrappers siteFinder fetch v = .ok (c, e2)) :
    ∀ (u : String) (l : List String), c = some l → u ∈ l →
      ∃ rest, u = cveDomain ++ rest := by
  rw [run_web_scrappers] at h
  split at h
  · cases h
  · rename_i c2 hc2
    injection h with h2
    injection h2 with h3 h4
    subst h3
    intro u l hc hu
    subst hc
    exact scrap_cve_domain siteFinder fetch v l hc2 u hu

/-- Replacing an entry preserves any per-vulnerability predicate that the
new entry and all old entries satisfy. -/
theorem setVulnPred (P : Vulnerability → Prop) (l : List Entry) (i : Nat)
    (hilt : i < l.length) (x : Vulnerability) (hx : P x)
    (hinv : ∀ (j : Nat) (w : Vulnerability), l[j]? = some (Entry.vuln w) → P w) :
    ∀ (j : Nat) (w : Vulnerability),
      (l.set i (Entry.vuln x))[j]? = some (Entry.vuln w) → P w := by
  intro j w hj
  by_cases hji : j = i
  · subst hji
    rw [List.getElem?_set_eq_of_lt _ hilt] at hj
    injection hj with hj2
    injection hj2 with hj3
    subst hj3
    exact hx
  · rw [List.getElem?_set_ne (fun h => hji h.symm)] at hj
    exact hinv j w hj

/-- Loop invariant: when every advisory URL the scrapers ever return
carries the domain prefix, every emitted cve_link is either `"Unknown"` or
prefixed, and the `cve_urls` state stays all-prefixed. -/
theorem feLoop_cve_domain
    (scrapers : String → Except PyErr (Option (List String) × List String))
    (hscr : ∀ v c e, scrapers v = .ok (c, e) →
      ∀ (u : String) (l2 : List String), c = some l2 → u ∈ l2 →
        ∃ rest, u = cveDomain ++ rest) :
    ∀ (fuel i : Nat) (l : List Entry) (cve : Option (List String))
      (exp : List String) (res : List Entry),
      (∀ (u : String) (l2 : List String), cve = some l2 → u ∈ l2 →
        ∃ rest, u = cveDomain ++ rest) →
      (∀ (j : Nat) (w : Vulnerability), l[j]? = some (Entry.vuln w) →
        w.cve_link = "Unknown" ∨ ∃ rest, w.cve_link = cveDomain ++ rest) →
      feLoop scrapers fuel i l cve exp = .ok res →
      ∀ (j : Nat) (w : Vulnerability), res[j]? = some (Entry.vuln w) →
        w.cve_link = "Unknown" ∨ ∃ rest, w.cve_link = cveDomain ++ rest
  | 0, i, l, cve, exp, res, hcve, hinv, hres => by
    simp only [feLoop] at hres
    cases hres
    exact hinv
  | fuel + 1, i, l, cve, exp, res, hcve, hinv, hres => by
    simp only [feLoop] at hres
    split at hres
    · cases hres
      exact hinv
    · rename_i c hl
      have hilt : i < l.length := by
        rcases List.getElem?_eq_some_iff.mp hl with ⟨h, _⟩
        exact h
      split at hres
      · cases hres
      · rename_i cve2 exp2 hs
        rw [pyDel_pyInsert_eq_set _ l i hilt] at hres
        have hcve2 : ∀ (u : String) (l2 : List String), cve2 = some l2 →
            u ∈ l2 → ∃ rest, u = cveDomain ++ rest := by
          by_cases hv : c.service_version = "Unknown"
          · rw [if_neg (by simp [hv])] at hs
            injection hs with hs2
            injection hs2 with hs3 hs4
            subst hs3
            exact hcve
          · rw [if_pos (by simp [hv])] at hs
            exact hscr _ _ _ hs
        rcases cve2 with _ | cl
        · exact feLoop_cve_domain scrapers hscr fuel (i + 1) _ _ _ res
            (fun u l2 h2 => Option.noConfusion h2)
            (setVulnPred _ l i hilt _ (Or.inl rfl) hinv) hres
        · rcases cl with _ | ⟨cu, ct⟩
          · exact feLoop_cve_domain scrapers hscr fuel (i + 1) _ _ _ res
              (fun u l2 h2 hu => by
                injection h2 with h3
                subst h3
                cases hu)
              (setVulnPred _ l i hilt _ (Or.inl rfl) hinv) hres
          · exact feLoop_cve_domain scrapers hscr fuel (i + 1) _ _ _ res
              (fun u l2 h2 hu => by
                injection h2 with h3
                subst h3
                exact hcve2 u (cu :: ct) rfl (List.mem_cons_of_mem cu hu))
              (setVulnPred _ l i hilt _
                (Or.inr (hcve2 cu (cu :: ct) rfl (List.mem_cons_self cu ct)))
                hinv) hres

/-- C10: every advisory URL produced by `scrape_cve_table_page` begins with
the literal prefix `"https://www.cvedetails.com"`, so in the merged output
every cve_link other than `"Unknown"` starts with that domain prefix. -/
theorem cve_link_starts_with_domain
    (siteFinder : String → String → List String)
    (fetch : String → Except PyErr Page)
    (scan : List ServiceRecord) (res : List Entry)
    (hres : find_exploit (run_web_scrappers siteFinder fetch)
      (scan.map .svc) = .ok res) :
    (∀ (page : Page) (tokens : List String) (u : String),
      scrape_cve_table_page page tokens = .ok (some u) →
      ∃ rest, u = cveDomain ++ rest) ∧
    ∀ (j : Nat) (w : Vulnerability), res[j]? = some (Entry.vuln w) →
      w.cve_link = "Unknown" ∨ ∃ rest, w.cve_link = cveDomain ++ rest := by
  constructor
  · intro page tokens u h
    exact scrapeCells_domain tokens page.summaryCells u h
  · refine feLoop_cve_domain (run_web_scrappers siteFinder fetch)
      (fun v c e h => run_web_scrappers_cve_domain siteFinder fetch v c e h)
      (scan.map Entry.svc).length 0 _ (some []) [] res ?_ ?_ hres
    · intro u l2 h2 hu
      injection h2 with h3
      subst h3
      cases hu
    · intro j w hj
      rw [List.getElem?_map] at hj
      cases hmm : scan[j]? with
      | none => rw [hmm] at hj; simp at hj
      | some r => rw [hmm] at hj; simp at hj

/-- Site-finder for the C10 witness: one advisory listing page and one
exploit page. -/
def c10Finder : String → String → List String :=
  fun _ d => if d = cveDomain then ["listing"]
    else ["https://www.exploit-db.com/exploits/50383"]

/-- Fetch for the C10 witness: a listing page with one matching row. -/
def c10Fetch : String → Except PyErr Page :=
  fun _ => .ok ⟨[chainCell "/cve/CVE-2021-41773/" "affects 2.4.49 and earlier"]⟩

/-- Merge output of the C10 witness. -/
def c10Res : List Entry :=
  [.vuln ⟨80, "apache", "2.4.49",
    "https://www.cvedetails.com/cve/CVE-2021-41773/",
    "https://www.exploit-db.com/exploits/50383"⟩]

/-- Witness for `cve_link_starts_with_domain` at a concrete end-to-end run. -/
theorem cve_link_starts_with_domain_witness :
    find_exploit (run_web_scrappers c10Finder c10Fetch)
      ([⟨80, "apache", "2.4.49"⟩].map .svc) = .ok c10Res ∧
    ((∀ (page : Page) (tokens : List String) (u : String),
      scrape_cve_table_page page tokens = .ok (some u) →
      ∃ rest, u = cveDomain ++ rest) ∧
    ∀ (j : Nat) (w : Vulnerability), c10Res[j]? = some (Entry.vuln w) →
      w.cve_link = "Unknown" ∨ ∃ rest, w.cve_link = cveDomain ++ rest) :=
  ⟨by rfl,
   cve_link_starts_with_domain c10Finder c10Fetch [⟨80, "apache", "2.4.49"⟩]
     c10Res (by rfl)⟩
